import Mathlib

/-!
Verification development for the graph-book contact manager: a GraphQL CRUD
API over a Mongo contact collection (schema + resolvers), an Apollo-based
client data layer, and two client-side helpers (avatar palette, create-form
validation).  The store is embedded as a list of contact documents and each
resolver as a state-passing function; asynchronous calls of the client layer
are embedded as functions that also return the list of requests they issued.
-/

namespace GraphBook

/-- A persisted contact document: the fields of the `Contact` GraphQL type
(`id`, `name`, `email`, `phone`, `createdAt`, `updatedAt`).  Identifiers and
timestamps are embedded as naturals. -/
structure Contact where
  id : Nat
  name : String
  email : String
  phone : String
  createdAt : Nat
  updatedAt : Nat
deriving Repr, DecidableEq

/-- The contact collection: the state the resolvers read and write. -/
abbrev Store := List Contact

/-- Mongoose `Contact.find()`: every document of the collection, in store
order. -/
def Contact.find (s : Store) : List Contact := s

/-- Mongoose `Contact.findById(id)`: the document whose `_id` matches, or
none. -/
def Contact.findById (s : Store) (i : Nat) : Option Contact :=
  List.find? (fun c => c.id == i) s

/-- The update document `{ name, email, phone, updatedAt: new Date() }`
applied to one matching document.  Mongoose strips `undefined` keys from an
update, so a field the mutation omitted (embedded as `none`) keeps its stored
value, while `updatedAt` is always overwritten. -/
def applyUpdate (c : Contact) (n e p : Option String) (now : Nat) : Contact :=
  { c with
      name := n.getD c.name
      email := e.getD c.email
      phone := p.getD c.phone
      updatedAt := now }

/-- Mongoose `Contact.findByIdAndUpdate(id, update, { new: true })`: rewrites
the matching document in place and returns the post-update document, or
returns none leaving the collection unchanged. -/
def Contact.findByIdAndUpdate :
    Store → Nat → Option String → Option String → Option String → Nat →
    Option Contact × Store
  | [], _, _, _, _, _ => (none, [])
  | c :: rest, i, n, e, p, now =>
    if c.id == i then
      (some (applyUpdate c n e p now), applyUpdate c n e p now :: rest)
    else
      ((Contact.findByIdAndUpdate rest i n e p now).1,
        c :: (Contact.findByIdAndUpdate rest i n e p now).2)

/-- Mongoose `Contact.findByIdAndDelete(id)`: removes the matching document
and returns it, or returns none leaving the collection unchanged. -/
def Contact.findByIdAndDelete : Store → Nat → Option Contact × Store
  | [], _ => (none, [])
  | c :: rest, i =>
    if c.id == i then
      (some c, rest)
    else
      ((Contact.findByIdAndDelete rest i).1,
        c :: (Contact.findByIdAndDelete rest i).2)

/-- Modelled from the spec: `models/Contact.js` (the Mongoose `Contact`
model) is not among the sources; per the spec the store assigns a fresh
unique `id` on creation and sets both `createdAt` and `updatedAt` to the same
creation instant.  This builds the document that
`new Contact({ name, email, phone })` followed by `save()` persists. -/
def newContactDoc (freshId now : Nat) (name email phone : String) : Contact :=
  { id := freshId, name := name, email := email, phone := phone,
    createdAt := now, updatedAt := now }

/-- Resolver `Query.getContacts`: `await Contact.find()`. -/
def getContacts (s : Store) : List Contact := Contact.find s

/-- Resolver `Query.getContact`: `await Contact.findById(id)`; absent ids
yield `null`, never an error. -/
def getContact (s : Store) (i : Nat) : Option Contact :=
  Contact.findById s i

/-- Resolver `Mutation.createContact`: builds a new document, saves it, and
returns the persisted form (generated id and timestamps included). -/
def createContact (s : Store) (freshId now : Nat) (name email phone : String) :
    Contact × Store :=
  let c := newContactDoc freshId now name email phone
  (c, s ++ [c])

/-- Resolver `Mutation.updateContact`: `findByIdAndUpdate` with `{new: true}`,
then `if (!contact) throw new Error("Contact not found")`. -/
def updateContact (s : Store) (i : Nat) (n e p : Option String) (now : Nat) :
    Except String (Contact × Store) :=
  match Contact.findByIdAndUpdate s i n e p now with
  | (none, _) => Except.error "Contact not found"
  | (some c, s2) => Except.ok (c, s2)

/-- Resolver `Mutation.deleteContact`: `!!(await Contact.findByIdAndDelete(id))`
— a boolean, never an error. -/
def deleteContact (s : Store) (i : Nat) : Bool × Store :=
  ((Contact.findByIdAndDelete s i).1.isSome, (Contact.findByIdAndDelete s i).2)

/-- The client-layer draft shape: `Pick<Contact, "name" | "email" | "phone">`. -/
structure ContactDraft where
  name : String
  email : String
  phone : String
deriving Repr, DecidableEq

/-- One GraphQL request issued by the client data layer. -/
inductive Request where
  | createReq (name email phone : String)
  | updateReq (id : Nat) (name email phone : String)
  | deleteReq (id : Nat)
  | listReq
deriving Repr, DecidableEq

/-- Outcome of one client-layer operation: the server state afterwards, the
cached list afterwards, the value (or error) surfaced to the caller, and the
requests issued, in order. -/
structure ClientResult (α : Type) where
  server : Store
  cache : List Contact
  result : Except String α
  trace : List Request

namespace Client

/-- `refreshContacts`: `await refetch()` — re-runs `GET_CONTACTS` and replaces
the cached list wholesale with the server's list. -/
def refreshContacts (server : Store) (_cache : List Contact) : List Contact :=
  getContacts server

/-- Client `addContact(draft)`: awaits `CREATE_CONTACT`, then awaits
`refreshContacts()`, then returns `response.data?.createContact.id`.  A
transport failure (`transportOk = false`) makes the first await throw, so no
refresh happens and the error propagates to the caller. -/
def addContact (server cache : Store) (transportOk : Bool) (freshId now : Nat)
    (d : ContactDraft) : ClientResult (Option Nat) :=
  if transportOk then
    let res := createContact server freshId now d.name d.email d.phone
    { server := res.2, cache := refreshContacts res.2 cache,
      result := Except.ok (some res.1.id),
      trace := [Request.createReq d.name d.email d.phone, Request.listReq] }
  else
    { server := server, cache := cache, result := Except.error "ApolloError",
      trace := [Request.createReq d.name d.email d.phone] }

/-- Client `updateContact(id, draft)`: awaits `UPDATE_CONTACT` with all three
draft fields, then awaits `refreshContacts()`.  Either a transport failure or
a resolver error makes the first await throw, skipping the refresh. -/
def updateContact (server cache : Store) (transportOk : Bool) (i now : Nat)
    (d : ContactDraft) : ClientResult Unit :=
  if transportOk then
    match GraphBook.updateContact server i (some d.name) (some d.email)
        (some d.phone) now with
    | Except.ok (_, server2) =>
      { server := server2, cache := refreshContacts server2 cache,
        result := Except.ok (),
        trace := [Request.updateReq i d.name d.email d.phone, Request.listReq] }
    | Except.error msg =>
      { server := server, cache := cache, result := Except.error msg,
        trace := [Request.updateReq i d.name d.email d.phone] }
  else
    { server := server, cache := cache, result := Except.error "ApolloError",
      trace := [Request.updateReq i d.name d.email d.phone] }

/-- Client `deleteContact(id)`: awaits `DELETE_CONTACT` (ignoring the returned
boolean), then awaits `refreshContacts()`. -/
def deleteContact (server cache : Store) (transportOk : Bool) (i : Nat) :
    ClientResult Unit :=
  if transportOk then
    let server2 := (GraphBook.deleteContact server i).2
    { server := server2, cache := refreshContacts server2 cache,
      result := Except.ok (),
      trace := [Request.deleteReq i, Request.listReq] }
  else
    { server := server, cache := cache, result := Except.error "ApolloError",
      trace := [Request.deleteReq i] }

end Client

/-- JS `String.prototype.trim()`: drops leading and trailing whitespace
characters. -/
def jsTrim (s : String) : String :=
  String.mk
    (((s.data.dropWhile Char.isWhitespace).reverse.dropWhile
        Char.isWhitespace).reverse)

/-- One entry of the avatar color palette: `{ backgroundColor, textColor }`. -/
structure AvatarPalette where
  backgroundColor : String
  textColor : String
deriving Repr, DecidableEq

/-- The fixed 8-entry palette of `src/mobile/lib/avatar.ts`. -/
def palette : List AvatarPalette :=
  [ { backgroundColor := "#E0E7FF", textColor := "#3730A3" },
    { backgroundColor := "#FEF3C7", textColor := "#B45309" },
    { backgroundColor := "#DCFCE7", textColor := "#047857" },
    { backgroundColor := "#FDE68A", textColor := "#92400E" },
    { backgroundColor := "#FCE7F3", textColor := "#9D174D" },
    { backgroundColor := "#E2E8F0", textColor := "#1E293B" },
    { backgroundColor := "#E0F2FE", textColor := "#0369A1" },
    { backgroundColor := "#F3E8FF", textColor := "#7C3AED" } ]

/-- `getAvatarPalette(name)`: takes the first character of the trimmed name
(`none` when the trimmed name is empty), its uppercased character code (`0`
when absent), indexes the palette at `code % palette.length` (the JS
`palette.length ? … : 0` guard), and falls back to `palette[0]` via `??`. -/
def getAvatarPalette (name : String) : AvatarPalette :=
  let firstChar : Option Char := (jsTrim name).toList.head?
  let charCode : Nat :=
    match firstChar with
    | some c => c.toUpper.toNat
    | none => 0
  let index : Nat := if palette.length != 0 then charCode % palette.length else 0
  (palette.get? index).getD
    ((palette.get? 0).getD { backgroundColor := "", textColor := "" })

/-- Matching of the anchored JS regex `/^\S+@\S+\.\S+$/`: the string splits
as `A ++ "@" ++ B ++ "." ++ C` with `A`, `B`, `C` nonempty and every
character non-whitespace; equivalently no character is whitespace and there
are positions `i < j` holding `'@'` and `'.'` with at least one character
before `i`, between `i` and `j`, and after `j`. -/
def matchesEmailRegex (s : String) : Bool :=
  let cs := s.toList
  cs.all (fun c => !c.isWhitespace) &&
    (List.range cs.length).any (fun j =>
      (List.range j).any (fun i =>
        decide (1 ≤ i) && decide (i + 1 < j) && decide (j + 2 ≤ cs.length) &&
          (cs.getD i ' ' == '@') && (cs.getD j ' ' == '.')))

/-- The create-form `validate` of the new-contact screen: trims the three
fields, requires a nonempty name and phone, requires the trimmed email to
match the email regex unless it is empty, and on success returns the trimmed
payload passed to `addContact`. -/
def validate (name email phone : String) : Option ContactDraft :=
  let trimmedName := jsTrim name
  let trimmedEmail := jsTrim email
  let trimmedPhone := jsTrim phone
  let nameMissing := trimmedName == ""
  let emailInvalid := trimmedEmail != "" && !(matchesEmailRegex trimmedEmail)
  let phoneMissing := trimmedPhone == ""
  if nameMissing || emailInvalid || phoneMissing then
    none
  else
    some { name := trimmedName, email := trimmedEmail, phone := trimmedPhone }

/-! ### Helper lemmas about the embedded store operations -/

theorem applyUpdate_id (c : Contact) (n e p : Option String) (now : Nat) :
    (applyUpdate c n e p now).id = c.id := rfl

theorem find?_id_eq_none (s : Store) (i : Nat) (h : ∀ c ∈ s, c.id ≠ i) :
    List.find? (fun x => x.id == i) s = none :=
  List.find?_eq_none.mpr (fun x hx => by simpa using h x hx)

theorem findByIdAndUpdate_found (s : Store) (i : Nat) (n e p : Option String)
    (now : Nat) (c : Contact) (h : List.find? (fun x => x.id == i) s = some c) :
    ∃ s2, Contact.findByIdAndUpdate s i n e p now =
        (some (applyUpdate c n e p now), s2) ∧
      List.find? (fun x => x.id == i) s2 = some (applyUpdate c n e p now) := by
  induction s with
  | nil => simp [List.find?] at h
  | cons c0 rest ih =>
    cases hc : (c0.id == i) with
    | true =>
      simp only [List.find?, hc] at h
      injection h with h
      subst h
      refine ⟨applyUpdate c0 n e p now :: rest, ?_, ?_⟩
      · simp [Contact.findByIdAndUpdate, hc]
      · simp [List.find?, applyUpdate, hc]
    | false =>
      simp only [List.find?, hc] at h
      obtain ⟨s2, h1, h2⟩ := ih h
      refine ⟨c0 :: s2, ?_, ?_⟩
      · simp [Contact.findByIdAndUpdate, hc, h1]
      · simp only [List.find?, hc]
        exact h2

theorem findByIdAndUpdate_not_found (s : Store) (i : Nat)
    (n e p : Option String) (now : Nat)
    (h : List.find? (fun x => x.id == i) s = none) :
    Contact.findByIdAndUpdate s i n e p now = (none, s) := by
  induction s with
  | nil => simp [Contact.findByIdAndUpdate]
  | cons c0 rest ih =>
    cases hc : (c0.id == i) with
    | true =>
      simp only [List.find?, hc] at h
      exact Option.noConfusion h
    | false =>
      simp only [List.find?, hc] at h
      simp [Contact.findByIdAndUpdate, hc, ih h]

theorem findByIdAndDelete_not_found (s : Store) (i : Nat)
    (h : List.find? (fun x => x.id == i) s = none) :
    Contact.findByIdAndDelete s i = (none, s) := by
  induction s with
  | nil => simp [Contact.findByIdAndDelete]
  | cons c0 rest ih =>
    cases hc : (c0.id == i) with
    | true =>
      simp only [List.find?, hc] at h
      exact Option.noConfusion h
    | false =>
      simp only [List.find?, hc] at h
      simp [Contact.findByIdAndDelete, hc, ih h]

theorem findByIdAndDelete_isSome (s : Store) (i : Nat) :
    (Contact.findByIdAndDelete s i).1.isSome =
      (List.find? (fun x => x.id == i) s).isSome := by
  induction s with
  | nil => simp [Contact.findByIdAndDelete, List.find?]
  | cons c0 rest ih =>
    cases hc : (c0.id == i) with
    | true => simp [Contact.findByIdAndDelete, List.find?, hc]
    | false => simp [Contact.findByIdAndDelete, List.find?, hc, ih]

theorem findByIdAndDelete_after (s : Store) (i : Nat)
    (h : (s.map Contact.id).Nodup) :
    List.find? (fun x => x.id == i) (Contact.findByIdAndDelete s i).2 = none := by
  induction s with
  | nil => simp [Contact.findByIdAndDelete, List.find?]
  | cons c0 rest ih =>
    rw [List.map_cons, List.nodup_cons] at h
    cases hc : (c0.id == i) with
    | true =>
      have hc' : c0.id = i := by simpa using hc
      simp only [Contact.findByIdAndDelete, hc, if_true]
      refine List.find?_eq_none.mpr (fun x hx hxi => ?_)
      have hxi' : x.id = i := by simpa using hxi
      exact h.1 (by rw [hc', ← hxi']; exact List.mem_map_of_mem Contact.id hx)
    | false =>
      simp only [Contact.findByIdAndDelete, hc, if_false, Bool.false_eq_true]
      simp only [List.find?, hc]
      exact ih h.2

/-- A concrete stored contact, used by the witness theorems. -/
def ada : Contact :=
  { id := 1, name := "Ada", email := "ada@example.com", phone := "555-0100",
    createdAt := 10, updatedAt := 10 }

/-- C1: for every existing id, `updateContact` leaves each omitted field at
its stored value, overwrites exactly the provided fields, keeps `id` and
`createdAt`, always refreshes `updatedAt`, and the store afterwards holds the
returned record under that id. -/
theorem updateContact_frame (s : Store) (i : Nat) (n e p : Option String)
    (now : Nat) (c : Contact) (h : getContact s i = some c) :
    ∃ c2 s2, updateContact s i n e p now = Except.ok (c2, s2) ∧
      c2.name = n.getD c.name ∧ c2.email = e.getD c.email ∧
      c2.phone = p.getD c.phone ∧ c2.updatedAt = now ∧
      c2.id = c.id ∧ c2.createdAt = c.createdAt ∧
      getContact s2 i = some c2 := by
  obtain ⟨s2, h1, h2⟩ := findByIdAndUpdate_found s i n e p now c h
  exact ⟨applyUpdate c n e p now, s2, by simp [updateContact, h1],
    rfl, rfl, rfl, rfl, rfl, rfl, h2⟩

/-- Witness for C1: updating only the name of the stored contact `ada`. -/
theorem updateContact_frame_witness :
    getContact [ada] 1 = some ada ∧
    ∃ c2 s2, updateContact [ada] 1 (some "Ada L") none none 11 =
        Except.ok (c2, s2) ∧
      c2.name = (some "Ada L").getD ada.name ∧
      c2.email = (none : Option String).getD ada.email ∧
      c2.phone = (none : Option String).getD ada.phone ∧ c2.updatedAt = 11 ∧
      c2.id = ada.id ∧ c2.createdAt = ada.createdAt ∧
      getContact s2 1 = some c2 :=
  ⟨by decide, updateContact_frame [ada] 1 (some "Ada L") none none 11 ada
    (by decide)⟩

/-- C2: `updateContact` on an absent id yields the error
`"Contact not found"` — not an absent result and not a silent no-op — and on
an existing id yields the post-update record, which the store then holds. -/
theorem updateContact_not_found_error (s : Store) (i : Nat)
    (n e p : Option String) (now : Nat) :
    (getContact s i = none →
      updateContact s i n e p now = Except.error "Contact not found") ∧
    (∀ c, getContact s i = some c →
      ∃ c2 s2, updateContact s i n e p now = Except.ok (c2, s2) ∧
        getContact s2 i = some c2) := by
  constructor
  · intro h
    have h1 := findByIdAndUpdate_not_found s i n e p now h
    simp [updateContact, h1]
  · intro c h
    obtain ⟨s2, h1, h2⟩ := findByIdAndUpdate_found s i n e p now c h
    exact ⟨applyUpdate c n e p now, s2, by simp [updateContact, h1], h2⟩

/-- Witness for C2: updating the absent id 2 errors. -/
theorem updateContact_not_found_error_witness :
    getContact [ada] 2 = none ∧
    updateContact [ada] 2 none none none 11 =
      Except.error "Contact not found" :=
  ⟨by decide,
    (updateContact_not_found_error [ada] 2 none none none 11).1 (by decide)⟩

/-- C3: with unique ids, `deleteContact` returns `true` exactly when a record
with the id exists, the record is removed (a subsequent `getContact` is
absent), and on a missing id it returns `false` — a boolean, not an error —
leaving the store unchanged. -/
theorem deleteContact_spec (s : Store) (i : Nat)
    (h : (s.map Contact.id).Nodup) :
    ((deleteContact s i).1 = (getContact s i).isSome) ∧
    (getContact (deleteContact s i).2 i = none) ∧
    (getContact s i = none → deleteContact s i = (false, s)) := by
  refine ⟨?_, ?_, ?_⟩
  · exact findByIdAndDelete_isSome s i
  · exact findByIdAndDelete_after s i h
  · intro hnone
    have h1 := findByIdAndDelete_not_found s i hnone
    simp [deleteContact, h1]

/-- Witness for C3: deleting from the one-contact store. -/
theorem deleteContact_spec_witness :
    (([ada] : Store).map Contact.id).Nodup ∧
    (((deleteContact [ada] 1).1 = (getContact [ada] 1).isSome) ∧
      (getContact (deleteContact [ada] 1).2 1 = none) ∧
      (getContact [ada] 1 = none → deleteContact [ada] 1 = (false, [ada]))) :=
  ⟨by decide, deleteContact_spec [ada] 1 (by decide)⟩

/-- C4: when the store assigns a fresh id, `createContact` persists a record
whose `name`, `email`, `phone` equal the inputs and whose `createdAt` equals
`updatedAt`; the create response is that record (id and timestamps visible),
and a subsequent `getContact` on the returned id yields it. -/
theorem createContact_roundtrip (s : Store) (freshId now : Nat)
    (name email phone : String) (h : ∀ c ∈ s, c.id ≠ freshId) :
    ∃ c, createContact s freshId now name email phone = (c, s ++ [c]) ∧
      getContact (s ++ [c]) freshId = some c ∧
      c.id = freshId ∧ c.name = name ∧ c.email = email ∧ c.phone = phone ∧
      c.createdAt = now ∧ c.updatedAt = now ∧ c.createdAt = c.updatedAt := by
  refine ⟨newContactDoc freshId now name email phone, rfl, ?_,
    rfl, rfl, rfl, rfl, rfl, rfl, rfl⟩
  have hnone := find?_id_eq_none s freshId h
  show List.find? (fun x => x.id == freshId)
      (s ++ [newContactDoc freshId now name email phone]) =
    some (newContactDoc freshId now name email phone)
  rw [List.find?_append, hnone]
  simp [List.find?, newContactDoc]

/-- Witness for C4: creating a second contact next to `ada`. -/
theorem createContact_roundtrip_witness :
    (∀ c ∈ ([ada] : Store), c.id ≠ 2) ∧
    ∃ c, createContact [ada] 2 20 "Bob" "bob@example.com" "555-0101" =
        (c, [ada] ++ [c]) ∧
      getContact ([ada] ++ [c]) 2 = some c ∧
      c.id = 2 ∧ c.name = "Bob" ∧ c.email = "bob@example.com" ∧
      c.phone = "555-0101" ∧
      c.createdAt = 20 ∧ c.updatedAt = 20 ∧ c.createdAt = c.updatedAt :=
  ⟨by decide,
    createContact_roundtrip [ada] 2 20 "Bob" "bob@example.com" "555-0101"
      (by decide)⟩

/-- C5: `getContact` is total, and whenever no record has the requested id it
returns an absent result (`none`), not an error. -/
theorem getContact_absent (s : Store) (i : Nat) (h : ∀ c ∈ s, c.id ≠ i) :
    getContact s i = none :=
  find?_id_eq_none s i h

/-- Witness for C5: looking up the absent id 2. -/
theorem getContact_absent_witness :
    (∀ c ∈ ([ada] : Store), c.id ≠ 2) ∧ getContact [ada] 2 = none :=
  ⟨by decide, getContact_absent [ada] 2 (by decide)⟩

/-- A concrete draft, used by the witness theorems. -/
def bobDraft : ContactDraft :=
  { name := "Bob", email := "bob@example.com", phone := "555-0101" }

/-- C6: with the transport up, each client mutation issues its request first
and then a full list refresh, so the cache afterwards is exactly the server's
list (never an optimistic insertion); `addContact` additionally returns the
id of the newly created contact. -/
theorem client_mutations_refresh (server cache : Store) (freshId now : Nat)
    (d : ContactDraft) (i : Nat) (hex : (getContact server i).isSome) :
    ((Client.addContact server cache true freshId now d).trace =
        [Request.createReq d.name d.email d.phone, Request.listReq] ∧
      (Client.addContact server cache true freshId now d).cache =
        getContacts (Client.addContact server cache true freshId now d).server ∧
      (Client.addContact server cache true freshId now d).result =
        Except.ok (some freshId)) ∧
    ((Client.updateContact server cache true i now d).trace =
        [Request.updateReq i d.name d.email d.phone, Request.listReq] ∧
      (Client.updateContact server cache true i now d).cache =
        getContacts (Client.updateContact server cache true i now d).server) ∧
    ((Client.deleteContact server cache true i).trace =
        [Request.deleteReq i, Request.listReq] ∧
      (Client.deleteContact server cache true i).cache =
        getContacts (Client.deleteContact server cache true i).server) := by
  obtain ⟨c, hc⟩ := Option.isSome_iff_exists.mp hex
  obtain ⟨s2, h1, h2⟩ := findByIdAndUpdate_found server i (some d.name)
    (some d.email) (some d.phone) now c hc
  have hres : updateContact server i (some d.name) (some d.email)
      (some d.phone) now =
      Except.ok
        (applyUpdate c (some d.name) (some d.email) (some d.phone) now, s2) := by
    simp [updateContact, h1]
  refine ⟨⟨rfl, rfl, rfl⟩, ⟨?_, ?_⟩, ⟨rfl, rfl⟩⟩
  · simp [Client.updateContact, hres]
  · simp [Client.updateContact, hres, Client.refreshContacts]

/-- Witness for C6: mutating the one-contact store over a live transport. -/
theorem client_mutations_refresh_witness :
    (getContact [ada] 1).isSome ∧
    (((Client.addContact [ada] [] true 2 20 bobDraft).trace =
        [Request.createReq bobDraft.name bobDraft.email bobDraft.phone,
          Request.listReq] ∧
      (Client.addContact [ada] [] true 2 20 bobDraft).cache =
        getContacts (Client.addContact [ada] [] true 2 20 bobDraft).server ∧
      (Client.addContact [ada] [] true 2 20 bobDraft).result =
        Except.ok (some 2)) ∧
    ((Client.updateContact [ada] [] true 1 20 bobDraft).trace =
        [Request.updateReq 1 bobDraft.name bobDraft.email bobDraft.phone,
          Request.listReq] ∧
      (Client.updateContact [ada] [] true 1 20 bobDraft).cache =
        getContacts (Client.updateContact [ada] [] true 1 20 bobDraft).server) ∧
    ((Client.deleteContact [ada] [] true 1).trace =
        [Request.deleteReq 1, Request.listReq] ∧
      (Client.deleteContact [ada] [] true 1).cache =
        getContacts (Client.deleteContact [ada] [] true 1).server)) :=
  ⟨by decide, client_mutations_refresh [ada] [] 2 20 bobDraft 1 (by decide)⟩

/-- C7: a failed client mutation leaves the cached list unchanged — no
refresh request is issued and no entry is touched — reports the failure to
the caller, and performs no retry (exactly one request is issued); this holds
both for a transport failure of any mutation and for the update resolver's
not-found error. -/
theorem client_mutation_failure (server cache : Store) (freshId now : Nat)
    (d : ContactDraft) (i : Nat) :
    Client.addContact server cache false freshId now d =
      { server := server, cache := cache,
        result := Except.error "ApolloError",
        trace := [Request.createReq d.name d.email d.phone] } ∧
    Client.updateContact server cache false i now d =
      { server := server, cache := cache,
        result := Except.error "ApolloError",
        trace := [Request.updateReq i d.name d.email d.phone] } ∧
    Client.deleteContact server cache false i =
      { server := server, cache := cache,
        result := Except.error "ApolloError",
        trace := [Request.deleteReq i] } ∧
    (getContact server i = none →
      Client.updateContact server cache true i now d =
        { server := server, cache := cache,
          result := Except.error "Contact not found",
          trace := [Request.updateReq i d.name d.email d.phone] }) := by
  refine ⟨rfl, rfl, rfl, ?_⟩
  intro h
  have h1 := findByIdAndUpdate_not_found server i (some d.name) (some d.email)
    (some d.phone) now h
  simp [Client.updateContact, updateContact, h1]

/-- Witness for C7: the not-found failure of an update over a live
transport. -/
theorem client_mutation_failure_witness :
    getContact [ada] 2 = none ∧
    Client.updateContact [ada] [ada] true 2 11 bobDraft =
      { server := [ada], cache := [ada],
        result := Except.error "Contact not found",
        trace := [Request.updateReq 2 bobDraft.name bobDraft.email
          bobDraft.phone] } :=
  ⟨by decide,
    (client_mutation_failure [ada] [ada] 0 11 bobDraft 2).2.2.2 (by decide)⟩

/-- C8: `refreshContacts` is idempotent — it replaces the cache wholesale
with the server's list, so a second refresh with no intervening mutation
yields the identical cached list. -/
theorem refresh_idempotent (server cache : Store) :
    Client.refreshContacts server (Client.refreshContacts server cache) =
      Client.refreshContacts server cache ∧
    Client.refreshContacts server cache = getContacts server :=
  ⟨rfl, rfl⟩

/-- The palette has exactly 8 entries. -/
theorem palette_length : palette.length = 8 := rfl

/-- `getAvatarPalette` indexes the palette at the uppercased code of the
first character of the trimmed name, modulo 8, defaulting to index 0. -/
theorem getAvatarPalette_eq (name : String) :
    getAvatarPalette name =
      palette.getD
        (match (jsTrim name).toList.head? with
         | none => 0
         | some c => c.toUpper.toNat % 8)
        { backgroundColor := "", textColor := "" } := by
  cases h : (jsTrim name).toList.head? with
  | none =>
    have h' : (jsTrim name).data.head? = none := h
    simp [getAvatarPalette, h, h', palette_length, List.getD, palette]
  | some c =>
    have h' : (jsTrim name).data.head? = some c := h
    have h8 : c.toUpper.toNat % 8 < 8 := Nat.mod_lt _ (by decide)
    simp only [getAvatarPalette, h, h', palette_length, List.getD]
    set m := c.toUpper.toNat % 8 with hm
    interval_cases m <;> simp [palette]

/-- C9: `getAvatarPalette` is total: on every string it returns an element of
the fixed 8-entry palette, namely the entry at index
`(uppercased code of the first non-whitespace character) % 8`, and the entry
at index 0 when the trimmed name is empty; it never indexes out of range. -/
theorem getAvatarPalette_total (name : String) :
    getAvatarPalette name ∈ palette ∧
    getAvatarPalette name =
      (match (jsTrim name).toList.head? with
       | none => palette.getD 0 { backgroundColor := "", textColor := "" }
       | some c =>
         palette.getD (c.toUpper.toNat % 8)
           { backgroundColor := "", textColor := "" }) := by
  refine ⟨?_, ?_⟩
  · rw [getAvatarPalette_eq name]
    cases h : (jsTrim name).toList.head? with
    | none => simp only [h]; decide
    | some c =>
      simp only [h]
      have h8 : c.toUpper.toNat % 8 < 8 := Nat.mod_lt _ (by decide)
      set m := c.toUpper.toNat % 8 with hm
      interval_cases m <;> decide
  · rw [getAvatarPalette_eq name]
    cases h : (jsTrim name).toList.head? <;> simp only [h]

/-- C10: the create-form validation rejects a draft exactly when the trimmed
name is empty, the trimmed phone is empty, or the trimmed email is nonempty
and fails the email regex; an empty email is accepted, and an accepted draft
is forwarded with the trimmed name, email, and phone. -/
theorem validate_spec (n e p : String) :
    validate n e p =
      if jsTrim n = "" ∨ jsTrim p = "" ∨
          (jsTrim e ≠ "" ∧ matchesEmailRegex (jsTrim e) = false) then
        none
      else
        some { name := jsTrim n, email := jsTrim e, phone := jsTrim p } := by
  by_cases h1 : jsTrim n = "" <;> by_cases h2 : jsTrim p = "" <;>
    by_cases h3 : jsTrim e = "" <;> cases h4 : matchesEmailRegex (jsTrim e) <;>
      simp [validate, h1, h2, h3, h4]

end GraphBook
